import Mathlib

/-!
Verification of the Postgres driver core
(`src/dialect/postgres/postgres-driver.ts`): lifecycle state machine,
connection identity cache, backend loading, and query-result
normalization.  Stateful TypeScript is embedded as explicit state
passing; each effectful call records its observable events (backend
requests, pool events, hook invocations) in a trace; promise
rejections and thrown errors are embedded as `Except`.
-/

deriving instance DecidableEq for Except

namespace KyselyPg

/-- A SQL parameter value bound into a compiled query (opaque to the driver). -/
inductive SqlValue where
  | vstr (s : String)
  | vint (n : Int)
  | vnull
deriving DecidableEq

/-- A compiled query: statement text plus ordered positional bindings
(`CompiledQuery` from `src/query-compiler/compiled-query.ts`, consumed here). -/
structure CompiledQuery where
  sql : String
  bindings : List SqlValue
deriving DecidableEq

/-! ## Backend loader (`importPg`) -/

/-- A JavaScript error value, distinguished by its class/shape. -/
inductive JsError where
  | moduleNotFound (specifier : String)
  | error (message : String)
deriving DecidableEq

/-- The resolved `pg` module (its content is irrelevant to the driver's logic). -/
inductive PgModule where
  | mk
deriving DecidableEq

/-- Evaluating an expression inside an async function body either throws
synchronously or yields a promise; here promises are represented by their
settled value. -/
inductive AsyncEval (α : Type) where
  | thrown (e : JsError)
  | promise (v : Except JsError α)
deriving DecidableEq

/-- The message the `catch` block in `importPg` would attach. -/
def missingPgMessage : String :=
  "Postgres client not installed. Please run `npm install pg`"

/-- `import('pg')` as the ECMAScript runtime evaluates it: a dynamic import
never throws synchronously; it always returns a promise, which is rejected
with the loader's module-not-found error when the module is absent. -/
def dynamicImportPg (pgInstalled : Bool) : AsyncEval PgModule :=
  AsyncEval.promise (if pgInstalled then Except.ok PgModule.mk
    else Except.error (JsError.moduleNotFound "pg"))

/-- `importPg` from the source:
`try { return import('pg') } catch (error) { throw new Error(...) }`.
The `try`/`catch` guards only synchronous evaluation of the `return`
expression; since `import('pg')` yields a promise without throwing, the
promise is returned un-awaited and its rejection propagates past the
`catch`, whose handler would produce `Error(missingPgMessage)`. -/
def importPg (pgInstalled : Bool) : Except JsError PgModule :=
  match dynamicImportPg pgInstalled with
  | AsyncEval.thrown _ => Except.error (JsError.error missingPgMessage)
  | AsyncEval.promise v => v

/-! ## Driver state (`PostgresDriver`) -/

/-- Identity of a physical connection handle (`PoolClient`): handles are
compared by reference, so we model them by an identity token. -/
abbrev ClientId := Nat

/-- A `PostgresConnection` wrapper.  `id` is its allocation identity
(reference identity of the `new PostgresConnection(client)` object);
`client` is the wrapped physical handle. -/
structure PostgresConnection where
  id : Nat
  client : ClientId
deriving DecidableEq

/-- Configuration handed to `new pg.Pool({...})` in `initImpl`. -/
structure PoolConfig where
  host : String
  database : String
  port : Nat
  user : String
  password : String
  connectionTimeoutMillis : Nat
  idleTimeoutMillis : Nat
  maxConnections : Nat
deriving DecidableEq

/-- The backend-native pool handle, identified by the configuration it was
constructed from. -/
abbrev Pool := PoolConfig

/-- The mutable fields of `PostgresDriver`: `#pool` and the `#connections`
WeakMap (an association list keyed by physical-handle identity), plus an
allocation counter giving each `new PostgresConnection` a fresh reference
identity. -/
structure PostgresDriverState where
  pool : Option Pool
  connections : List (ClientId × PostgresConnection)
  nextId : Nat
deriving DecidableEq

/-- `WeakMap.get`: first entry with the given key. -/
def lookupConn : List (ClientId × PostgresConnection) → ClientId →
    Option PostgresConnection
  | [], _ => none
  | (k, w) :: rest, c => if k = c then some w else lookupConn rest c

/-- The state of a freshly constructed `PostgresDriver`. -/
def emptyDriverState : PostgresDriverState :=
  ⟨none, [], 0⟩

/-- Observable operations performed on the backend pool. -/
inductive PoolEvent where
  | poolCreated (cfg : PoolConfig)
  | poolEnded
deriving DecidableEq

/-- `initImpl` from the source: await `importPg()`, then construct the
`pg.Pool` from the configuration and store it in `#pool`.  A rejection of
`importPg` propagates; no pool is created in that case. -/
def initImpl (pgInstalled : Bool) (cfg : PoolConfig) (s : PostgresDriverState) :
    List PoolEvent × Except JsError PostgresDriverState :=
  match importPg pgInstalled with
  | Except.error e => ([], Except.error e)
  | Except.ok _ =>
    ([PoolEvent.poolCreated cfg], Except.ok ⟨some cfg, s.connections, s.nextId⟩)

/-- `destroyImpl` from the source: if `#pool` is set, null it out first and
then await `pool.end()`; otherwise do nothing.  It can never throw. -/
def destroyImpl (s : PostgresDriverState) : List PoolEvent × PostgresDriverState :=
  match s.pool with
  | some _ => ([PoolEvent.poolEnded], ⟨none, s.connections, s.nextId⟩)
  | none => ([], s)

/-- The caller-supplied `onCreateConnection` hook: arbitrary async caller
code that either resolves or rejects with some error. -/
abbrev Hook := PostgresConnection → Except String Unit

/-- Result of one `acquireConnectionImpl` call: the hook invocations it
performed (in order, each recording the wrapper passed to the hook), its
outcome (the returned wrapper, or the hook's rejection), and the driver
state it leaves behind. -/
structure AcquireResult where
  hookCalls : List PostgresConnection
  outcome : Except String PostgresConnection
  state : PostgresDriverState
deriving DecidableEq

/-- `acquireConnectionImpl` from the source, with the physical handle
yielded by `this.#pool!.connect()` passed in as `client` (which handle the
backend pool yields is its choice, not the driver's): look the handle up in
`#connections`; if absent, create a wrapper, insert it, then — if configured
— await `onCreateConnection` on it; return the wrapper (or the hook's
rejection). -/
def acquireConnectionImpl (hook : Option Hook) (s : PostgresDriverState)
    (client : ClientId) : AcquireResult :=
  match lookupConn s.connections client with
  | some connection => ⟨[], Except.ok connection, s⟩
  | none =>
    let connection : PostgresConnection := ⟨s.nextId, client⟩
    let s₂ : PostgresDriverState :=
      ⟨s.pool, (client, connection) :: s.connections, s.nextId + 1⟩
    match hook with
    | none => ⟨[], Except.ok connection, s₂⟩
    | some onCreateConnection =>
      match onCreateConnection connection with
      | Except.ok _ => ⟨[connection], Except.ok connection, s₂⟩
      | Except.error e => ⟨[connection], Except.error e, s₂⟩

/-- The trace of a sequence of `acquireConnectionImpl` calls: concatenated
hook invocations, the per-call outcomes paired with the physical handle the
pool yielded for that call, and the final state. -/
structure RunResult where
  hookCalls : List PostgresConnection
  outcomes : List (ClientId × Except String PostgresConnection)
  state : PostgresDriverState

/-- Run `acquireConnectionImpl` over a sequence of physical handles yielded
by the pool (a rejected acquisition leaves the driver state behind for the
next caller, exactly as the mutated private fields persist in the source). -/
def runAcquires (hook : Option Hook) (s : PostgresDriverState) :
    List ClientId → RunResult
  | [] => ⟨[], [], s⟩
  | c :: cs =>
    let r := acquireConnectionImpl hook s c
    let rest := runAcquires hook r.state cs
    ⟨r.hookCalls ++ rest.hookCalls, (c, r.outcome) :: rest.outcomes, rest.state⟩

/-! ## Driver lifecycle (base class, modelled from the spec) -/

/-- Modelled from the spec: the lifecycle states of the abstract `Driver`
base class (`src/driver/driver.ts`, not under `src/`): `Uninitialized`,
`Initialized`, `Destroyed`. -/
inductive LifecycleState where
  | Uninitialized
  | Initialized
  | Destroyed
deriving DecidableEq

/-- Full driver state: the lifecycle field of the abstract base class
(modelled from the spec) together with the `PostgresDriver` fields. -/
structure DriverState where
  lifecycle : LifecycleState
  impl : PostgresDriverState
deriving DecidableEq

/-- Errors surfaced by the lifecycle layer. -/
inductive DriverError where
  | invalidStateError
  | loadError (e : JsError)
  | hookFailed (msg : String)
deriving DecidableEq

/-- Modelled from the spec: `Driver.init` of the base class (not under
`src/`): valid only in `Uninitialized`, where it runs `initImpl` and moves
to `Initialized`; calling it in any other state fails with
`InvalidStateError` without touching the pool. -/
def driverInit (pgInstalled : Bool) (cfg : PoolConfig) (s : DriverState) :
    List PoolEvent × Except DriverError DriverState :=
  match s.lifecycle with
  | LifecycleState.Uninitialized =>
    match initImpl pgInstalled cfg s.impl with
    | (evs, Except.ok impl) => (evs, Except.ok ⟨LifecycleState.Initialized, impl⟩)
    | (evs, Except.error e) => (evs, Except.error (DriverError.loadError e))
  | _ => ([], Except.error DriverError.invalidStateError)

/-- Modelled from the spec: `Driver.destroy` of the base class (not under
`src/`): valid in `Initialized`, where it runs `destroyImpl` (which drains
the pool) and moves to `Destroyed`; a no-op, not an error, in
`Uninitialized` and `Destroyed`. -/
def driverDestroy (s : DriverState) : List PoolEvent × DriverState :=
  match s.lifecycle with
  | LifecycleState.Initialized =>
    let r := destroyImpl s.impl
    (r.1, ⟨LifecycleState.Destroyed, r.2⟩)
  | _ => ([], s)

/-- Modelled from the spec: `Driver.acquireConnection` of the base class
(not under `src/`): valid only in `Initialized`, where it delegates to
`acquireConnectionImpl`; otherwise fails with `InvalidStateError`. -/
def driverAcquire (hook : Option Hook) (s : DriverState) (client : ClientId) :
    Except DriverError PostgresConnection × DriverState :=
  match s.lifecycle with
  | LifecycleState.Initialized =>
    let r := acquireConnectionImpl hook s.impl client
    (match r.outcome with
      | Except.ok conn => Except.ok conn
      | Except.error e => Except.error (DriverError.hookFailed e),
     ⟨LifecycleState.Initialized, r.state⟩)
  | _ => (Except.error DriverError.invalidStateError, s)

/-- Lifecycle operations a caller can issue after construction. -/
inductive DriverOp where
  | acquire (c : ClientId)
  | destroy
deriving DecidableEq

/-- Run a sequence of acquire/destroy operations, collecting the outcome of
every acquire. -/
def runDriverOps (hook : Option Hook) (s : DriverState) :
    List DriverOp → List (Except DriverError PostgresConnection) × DriverState
  | [] => ([], s)
  | DriverOp.acquire c :: ops =>
    let r := driverAcquire hook s c
    let rest := runDriverOps hook r.2 ops
    (r.1 :: rest.1, rest.2)
  | DriverOp.destroy :: ops =>
    runDriverOps hook (driverDestroy s).2 ops

/-! ## Query execution (`PostgresConnection.executeQuery`) -/

/-- A JavaScript error surfaced from query execution, distinguished by its
class: the backend-native `pg` error (with its diagnostic message and
detail), or the spec's `QueryExecutionError` wrapper around a native
error. -/
inductive QueryError where
  | pgError (message : String) (detail : String)
  | queryExecutionError (native : QueryError)
deriving DecidableEq

/-- Whether an error value is an instance of the `QueryExecutionError`
wrapper class. -/
def QueryError.isQueryExecutionError : QueryError → Bool
  | QueryError.queryExecutionError _ => true
  | _ => false

/-- The result shape `pg`'s `client.query` resolves with: the command tag
of the executed statement, the affected-row count, and the result rows. -/
structure PgCommandResult (O : Type) where
  command : String
  rowCount : Nat
  rows : List O
deriving DecidableEq

/-- The `QueryResult` interface from `src/driver/database-connection.ts`
(consumed here). -/
structure QueryResult (O : Type) where
  numUpdatedOrDeletedRows : Option Nat
  insertedPrimaryKey : Option SqlValue
  rows : List O
deriving DecidableEq

/-- A result object as a JavaScript object: its fields plus its
extensibility state (`[[frozen]]`). -/
structure ResultObj (O : Type) where
  fields : QueryResult O
  frozen : Bool
deriving DecidableEq

/-- A freshly created object literal is mutable. -/
def mkResultObj {O : Type} (fields : QueryResult O) : ResultObj O :=
  ⟨fields, false⟩

/-- Modelled from the spec: `freeze` from `src/util/object-utils.ts` (not
under `src/`), per the spec's immutability invariant: `Object.freeze` marks
the object so every subsequent write to one of its own fields is
rejected. -/
def freeze {O : Type} (o : ResultObj O) : ResultObj O :=
  ⟨o.fields, true⟩

/-- A caller's attempted assignment to one field of a result object. -/
inductive FieldWrite (O : Type) where
  | setNumUpdatedOrDeletedRows (v : Option Nat)
  | setInsertedPrimaryKey (v : Option SqlValue)
  | setRows (v : List O)

/-- JavaScript field assignment: on a frozen object the write is rejected
and the object is unchanged; otherwise the field is updated. -/
def applyWrite {O : Type} (o : ResultObj O) : FieldWrite O → ResultObj O
  | FieldWrite.setNumUpdatedOrDeletedRows v =>
    if o.frozen then o else ⟨⟨v, o.fields.insertedPrimaryKey, o.fields.rows⟩, o.frozen⟩
  | FieldWrite.setInsertedPrimaryKey v =>
    if o.frozen then o else ⟨⟨o.fields.numUpdatedOrDeletedRows, v, o.fields.rows⟩, o.frozen⟩
  | FieldWrite.setRows v =>
    if o.frozen then o else ⟨⟨o.fields.numUpdatedOrDeletedRows, o.fields.insertedPrimaryKey, v⟩, o.frozen⟩

/-- The behavior of the wrapped `PoolClient`: `client.query(sql, params)`
either resolves with a `pg` result or rejects with some error. -/
structure ClientBehavior (O : Type) where
  query : String → List SqlValue → Except QueryError (PgCommandResult O)

/-- The array literal `[...compiledQuery.bindings]`: the spread copies the
elements one by one, in order. -/
def spreadBindings (bs : List SqlValue) : List SqlValue :=
  bs.foldr (fun v acc => v :: acc) []

/-- The observable effect of one `executeQuery` call: every request sent to
the physical connection (statement text with the positional parameter
array), and the outcome. -/
structure ExecResult (O : Type) where
  requests : List (String × List SqlValue)
  outcome : Except QueryError (ResultObj O)
deriving DecidableEq

/-- `PostgresConnection.executeQuery` from the source: await
`this.#client.query(compiledQuery.sql, [...compiledQuery.bindings])`, then
return the frozen result object, with `numUpdatedOrDeletedRows` populated
from `rowCount` exactly when the command tag is `UPDATE` or `DELETE`.  A
rejection of `client.query` propagates unchanged; no further request is
made. -/
def executeQuery {O : Type} (client : ClientBehavior O) (cq : CompiledQuery) :
    ExecResult O :=
  let params := spreadBindings cq.bindings
  match client.query cq.sql params with
  | Except.error e => ⟨[(cq.sql, params)], Except.error e⟩
  | Except.ok result =>
    ⟨[(cq.sql, params)],
     Except.ok (freeze (mkResultObj
       ⟨if result.command = "UPDATE" ∨ result.command = "DELETE"
          then some result.rowCount else none,
        none,
        result.rows⟩))⟩

/-! ## Concrete fixtures used by witnesses and counterexamples -/

/-- A compiled query used as a concrete input. -/
def cexQuery : CompiledQuery :=
  ⟨"select 1", [SqlValue.vint 1]⟩

/-- A client whose backend reports an UPDATE affecting 3 rows. -/
def cexUpdateClient : ClientBehavior Nat :=
  ⟨fun _ _ => Except.ok ⟨"UPDATE", 3, [10]⟩⟩

/-- A client whose backend reports a SELECT returning two rows. -/
def cexSelectClient : ClientBehavior Nat :=
  ⟨fun _ _ => Except.ok ⟨"SELECT", 2, [7, 8]⟩⟩

/-- A client whose backend rejects every statement with a native `pg`
constraint-violation error. -/
def cexFailingClient : ClientBehavior Nat :=
  ⟨fun _ _ => Except.error (QueryError.pgError
    "duplicate key value violates unique constraint" "Key (id)=(1) already exists.")⟩

/-- A concrete pool configuration. -/
def cexPoolConfig : PoolConfig :=
  ⟨"localhost", "db", 5432, "user", "pass", 1000, 1000, 10⟩

/-- A freshly constructed, never-initialized driver. -/
def freshDriver : DriverState :=
  ⟨LifecycleState.Uninitialized, emptyDriverState⟩

/-! ## Identity-cache lemmas -/

theorem lookupConn_cons (k : ClientId) (w : PostgresConnection)
    (l : List (ClientId × PostgresConnection)) (c : ClientId) :
    lookupConn ((k, w) :: l) c = if k = c then some w else lookupConn l c :=
  rfl

/-- An existing identity-cache entry survives any later acquisition: the
cache is only ever extended with handles that miss it. -/
theorem lookupConn_acquire_preserve (hook : Option Hook) (s : PostgresDriverState)
    (c c₂ : ClientId) (w : PostgresConnection)
    (h : lookupConn s.connections c = some w) :
    lookupConn (acquireConnectionImpl hook s c₂).state.connections c = some w := by
  unfold acquireConnectionImpl
  cases hl : lookupConn s.connections c₂ with
  | some w₂ => simpa using h
  | none =>
    have hc : c₂ ≠ c := by
      intro heq
      rw [heq, h] at hl
      exact Option.noConfusion hl
    cases hook with
    | none => simpa [lookupConn_cons, hc] using h
    | some f =>
      cases hf : f ⟨s.nextId, c₂⟩ with
      | ok u => simpa [hf, lookupConn_cons, hc] using h
      | error e => simpa [hf, lookupConn_cons, hc] using h

/-- An existing identity-cache entry survives a whole run of acquisitions. -/
theorem lookupConn_run_preserve (hook : Option Hook) (cs : List ClientId)
    (s : PostgresDriverState) (c : ClientId) (w : PostgresConnection)
    (h : lookupConn s.connections c = some w) :
    lookupConn (runAcquires hook s cs).state.connections c = some w := by
  induction cs generalizing s with
  | nil => simpa [runAcquires] using h
  | cons c₂ cs ih =>
    simp only [runAcquires]
    exact ih _ (lookupConn_acquire_preserve hook s c c₂ w h)

/-- A successful acquisition returns exactly the wrapper the cache holds for
that handle afterwards. -/
theorem acquire_ok_lookup (hook : Option Hook) (s : PostgresDriverState)
    (c : ClientId) (w : PostgresConnection)
    (h : (acquireConnectionImpl hook s c).outcome = Except.ok w) :
    lookupConn (acquireConnectionImpl hook s c).state.connections c = some w := by
  cases hl : lookupConn s.connections c with
  | some w₂ =>
    have hr : acquireConnectionImpl hook s c = ⟨[], Except.ok w₂, s⟩ := by
      unfold acquireConnectionImpl
      rw [hl]
    rw [hr] at h ⊢
    cases h
    exact hl
  | none =>
    cases hook with
    | none =>
      have hr : acquireConnectionImpl none s c
          = ⟨[], Except.ok ⟨s.nextId, c⟩,
             ⟨s.pool, (c, ⟨s.nextId, c⟩) :: s.connections, s.nextId + 1⟩⟩ := by
        unfold acquireConnectionImpl
        rw [hl]
      rw [hr] at h ⊢
      cases h
      simp [lookupConn_cons]
    | some f =>
      cases hf : f ⟨s.nextId, c⟩ with
      | ok u =>
        have hr : acquireConnectionImpl (some f) s c
            = ⟨[⟨s.nextId, c⟩], Except.ok ⟨s.nextId, c⟩,
               ⟨s.pool, (c, ⟨s.nextId, c⟩) :: s.connections, s.nextId + 1⟩⟩ := by
          unfold acquireConnectionImpl
          rw [hl]
          simp [hf]
        rw [hr] at h ⊢
        cases h
        simp [lookupConn_cons]
      | error e =>
        have hr : (acquireConnectionImpl (some f) s c).outcome = Except.error e := by
          unfold acquireConnectionImpl
          rw [hl]
          simp [hf]
        rw [hr] at h
        exact Except.noConfusion h

/-- Every successful outcome in a run agrees with the final cache. -/
theorem run_outcome_lookup (hook : Option Hook) (cs : List ClientId)
    (s : PostgresDriverState) (c : ClientId) (w : PostgresConnection)
    (h : (c, Except.ok w) ∈ (runAcquires hook s cs).outcomes) :
    lookupConn (runAcquires hook s cs).state.connections c = some w := by
  induction cs generalizing s with
  | nil => simp [runAcquires] at h
  | cons c₂ cs ih =>
    simp only [runAcquires] at h ⊢
    rcases List.mem_cons.mp h with hhead | htail
    · have hc : c = c₂ := congrArg Prod.fst hhead
      have hw : (acquireConnectionImpl hook s c₂).outcome = Except.ok w :=
        (congrArg Prod.snd hhead).symm
      subst hc
      exact lookupConn_run_preserve hook cs _ c w (acquire_ok_lookup hook s c w hw)
    · exact ih _ htail

/-- With a configured hook, a run from state `s` invokes the hook on a
wrapper for handle `c` exactly once if `c` is requested and not yet cached,
and never otherwise. -/
theorem run_hookCalls_count (h : Hook) (cs : List ClientId)
    (s : PostgresDriverState) (c : ClientId) :
    (runAcquires (some h) s cs).hookCalls.countP (fun w => w.client == c)
      = if c ∈ cs ∧ lookupConn s.connections c = none then 1 else 0 := by
  induction cs generalizing s with
  | nil => simp [runAcquires]
  | cons c₂ cs ih =>
    simp only [runAcquires]
    cases hl : lookupConn s.connections c₂ with
    | some w₂ =>
      simp only [acquireConnectionImpl, hl]
      rw [List.nil_append, ih]
      by_cases hc : c = c₂
      · subst hc
        simp [hl]
      · simp [List.mem_cons, hc]
    | none =>
      have hstep :
          acquireConnectionImpl (some h) s c₂
            = ⟨[⟨s.nextId, c₂⟩], (acquireConnectionImpl (some h) s c₂).outcome,
               ⟨s.pool, (c₂, ⟨s.nextId, c₂⟩) :: s.connections, s.nextId + 1⟩⟩ := by
        unfold acquireConnectionImpl
        rw [hl]
        cases hf : h ⟨s.nextId, c₂⟩ with
        | ok u => simp [hf]
        | error e => simp [hf]
      rw [hstep]
      simp only [List.countP_cons, List.countP_nil, List.nil_append, List.cons_append]
      rw [ih]
      by_cases hc : c = c₂
      · subst hc
        simp [lookupConn_cons, hl]
      · have hc₂ : c₂ ≠ c := fun hh => hc hh.symm
        simp [lookupConn_cons, hc₂, List.mem_cons, hc, Ne.symm hc]

/-! ## Claim theorems -/

/-- C1: over any sequence of acquisitions on a freshly constructed driver
with a configured creation hook, the hook is invoked exactly once per
physical handle that is ever acquired — on its first acquisition, awaited
before the wrapper is returned — and never re-invoked on later
acquisitions; and every successful acquisition of the same physical handle
returns the reference-identical wrapper. -/
theorem acquire_identity_and_hook_once (h : Hook) (cs : List ClientId) (c : ClientId) :
    ((runAcquires (some h) emptyDriverState cs).hookCalls.countP
        (fun w => w.client == c) = if c ∈ cs then 1 else 0)
    ∧ ∀ w₁ w₂,
        (c, Except.ok w₁) ∈ (runAcquires (some h) emptyDriverState cs).outcomes →
        (c, Except.ok w₂) ∈ (runAcquires (some h) emptyDriverState cs).outcomes →
        w₁ = w₂ := by
  constructor
  · rw [run_hookCalls_count]
    simp [emptyDriverState, lookupConn]
  · intro w₁ w₂ h₁ h₂
    have l₁ := run_outcome_lookup (some h) cs emptyDriverState c w₁ h₁
    have l₂ := run_outcome_lookup (some h) cs emptyDriverState c w₂ h₂
    rw [l₁] at l₂
    exact Option.some.inj l₂

/-- Witness for C1: handles 3, 4, then 3 again; the hook fires once for
handle 3 and both acquisitions of handle 3 return the wrapper allocated
first. -/
theorem acquire_identity_and_hook_once_witness :
    ((runAcquires (some (fun _ => Except.ok ())) emptyDriverState [3, 4, 3]).hookCalls.countP
        (fun w => w.client == 3) = if 3 ∈ [3, 4, 3] then 1 else 0)
    ∧ (⟨0, 3⟩ : PostgresConnection) = ⟨0, 3⟩ := by
  have h := acquire_identity_and_hook_once (fun _ => Except.ok ()) [3, 4, 3] 3
  exact ⟨h.1, h.2 ⟨0, 3⟩ ⟨0, 3⟩ (by decide) (by decide)⟩

/-- C10: when the creation hook rejects on the first acquisition of a
physical handle, the wrapper had already been inserted into the identity
cache before the hook ran: the acquisition rejects with the hook's error
after exactly one hook invocation, the cache retains the wrapper, and a
later acquisition of the same handle returns that cached wrapper without
invoking the hook again. -/
theorem hook_failure_keeps_cached_wrapper (h : Hook) (s : PostgresDriverState)
    (c : ClientId) (e : String)
    (hnone : lookupConn s.connections c = none)
    (herr : h ⟨s.nextId, c⟩ = Except.error e) :
    (acquireConnectionImpl (some h) s c).outcome = Except.error e
    ∧ (acquireConnectionImpl (some h) s c).hookCalls = [⟨s.nextId, c⟩]
    ∧ lookupConn (acquireConnectionImpl (some h) s c).state.connections c
        = some ⟨s.nextId, c⟩
    ∧ acquireConnectionImpl (some h) (acquireConnectionImpl (some h) s c).state c
        = ⟨[], Except.ok ⟨s.nextId, c⟩, (acquireConnectionImpl (some h) s c).state⟩ := by
  have hr : acquireConnectionImpl (some h) s c
      = ⟨[⟨s.nextId, c⟩], Except.error e,
         ⟨s.pool, (c, ⟨s.nextId, c⟩) :: s.connections, s.nextId + 1⟩⟩ := by
    unfold acquireConnectionImpl
    rw [hnone]
    simp [herr]
  refine ⟨by rw [hr], by rw [hr], ?_, ?_⟩
  · rw [hr]
    simp [lookupConn_cons]
  · rw [hr]
    unfold acquireConnectionImpl
    simp [lookupConn_cons]

/-- Witness for C10 at handle 0 on a fresh driver with a hook that always
rejects. -/
theorem hook_failure_keeps_cached_wrapper_witness :
    (acquireConnectionImpl (some (fun _ => Except.error "boom")) emptyDriverState 0).outcome
        = Except.error "boom"
    ∧ (acquireConnectionImpl (some (fun _ => Except.error "boom")) emptyDriverState 0).hookCalls
        = [⟨0, 0⟩]
    ∧ lookupConn (acquireConnectionImpl (some (fun _ => Except.error "boom"))
          emptyDriverState 0).state.connections 0 = some ⟨0, 0⟩
    ∧ acquireConnectionImpl (some (fun _ => Except.error "boom"))
        (acquireConnectionImpl (some (fun _ => Except.error "boom")) emptyDriverState 0).state 0
        = ⟨[], Except.ok ⟨0, 0⟩,
           (acquireConnectionImpl (some (fun _ => Except.error "boom")) emptyDriverState 0).state⟩ :=
  hook_failure_keeps_cached_wrapper (fun _ => Except.error "boom") emptyDriverState 0 "boom"
    rfl rfl

/-! ## Query-execution lemmas and claims -/

/-- The array spread copies the bindings verbatim: same elements, same
order, nothing dropped or duplicated. -/
theorem spreadBindings_eq (bs : List SqlValue) : spreadBindings bs = bs := by
  induction bs with
  | nil => rfl
  | cons b bs ih =>
    simp only [spreadBindings, List.foldr] at ih ⊢
    rw [ih]

/-- C9: executeQuery issues exactly one request to the physical connection,
carrying the compiled statement text together with the bindings as the
positional parameter array in their original order — no binding reordered,
dropped, or duplicated. -/
theorem executeQuery_sends_bindings_in_order {O : Type} (client : ClientBehavior O)
    (cq : CompiledQuery) :
    (executeQuery client cq).requests = [(cq.sql, cq.bindings)] := by
  simp only [executeQuery, spreadBindings_eq]
  cases h : client.query cq.sql cq.bindings <;> simp [h]

/-- C2: when the backend resolves, the returned result has
`numUpdatedOrDeletedRows` equal to the backend-reported affected-row count
exactly when the backend's command tag is UPDATE or DELETE — absent for
every other command — while `rows` always holds the backend's ordered
result set and `insertedPrimaryKey` is absent. -/
theorem executeQuery_result_shape {O : Type} (client : ClientBehavior O)
    (cq : CompiledQuery) (res : PgCommandResult O)
    (hq : client.query cq.sql (spreadBindings cq.bindings) = Except.ok res) :
    ∃ r, (executeQuery client cq).outcome = Except.ok r
      ∧ r.fields.numUpdatedOrDeletedRows
          = (if res.command = "UPDATE" ∨ res.command = "DELETE"
              then some res.rowCount else none)
      ∧ (r.fields.numUpdatedOrDeletedRows ≠ none
          ↔ (res.command = "UPDATE" ∨ res.command = "DELETE"))
      ∧ r.fields.rows = res.rows
      ∧ r.fields.insertedPrimaryKey = none := by
  refine ⟨freeze (mkResultObj
    ⟨if res.command = "UPDATE" ∨ res.command = "DELETE"
        then some res.rowCount else none, none, res.rows⟩), ?_, rfl, ?_, rfl, rfl⟩
  · simp only [executeQuery, hq]
  · by_cases hcmd : res.command = "UPDATE" ∨ res.command = "DELETE" <;>
      simp [freeze, mkResultObj, hcmd]

/-- Witness for C2: an UPDATE affecting 3 rows yields
`numUpdatedOrDeletedRows = some 3`. -/
theorem executeQuery_result_shape_witness :
    ∃ r, (executeQuery cexUpdateClient cexQuery).outcome = Except.ok r
      ∧ r.fields.numUpdatedOrDeletedRows
          = (if "UPDATE" = "UPDATE" ∨ "UPDATE" = "DELETE" then some 3 else none)
      ∧ (r.fields.numUpdatedOrDeletedRows ≠ none
          ↔ ("UPDATE" = "UPDATE" ∨ "UPDATE" = "DELETE"))
      ∧ r.fields.rows = [10]
      ∧ r.fields.insertedPrimaryKey = none :=
  executeQuery_result_shape cexUpdateClient cexQuery ⟨"UPDATE", 3, [10]⟩ rfl

/-- C4 counterexample: on a backend failure, the rejection executeQuery
surfaces is the backend's native error object itself — it is not an
instance of a `QueryExecutionError` wrapper class. -/
theorem executeQuery_error_not_wrapped_cex :
    (executeQuery cexFailingClient cexQuery).outcome
      = Except.error (QueryError.pgError
          "duplicate key value violates unique constraint"
          "Key (id)=(1) already exists.")
    ∧ QueryError.isQueryExecutionError (QueryError.pgError
          "duplicate key value violates unique constraint"
          "Key (id)=(1) already exists.") = false :=
  ⟨rfl, rfl⟩

/-- C4 (amended): on any backend failure, executeQuery rejects with the
backend's native error propagated unchanged — every diagnostic it carries
preserved, never swallowed — after exactly one backend request (no retry at
this layer). -/
theorem executeQuery_propagates_native_error {O : Type} (client : ClientBehavior O)
    (cq : CompiledQuery) (e : QueryError)
    (hq : client.query cq.sql (spreadBindings cq.bindings) = Except.error e) :
    executeQuery client cq = ⟨[(cq.sql, cq.bindings)], Except.error e⟩ := by
  rw [spreadBindings_eq] at hq
  simp only [executeQuery, spreadBindings_eq, hq]

/-- Witness for C4: a concrete constraint violation propagates verbatim. -/
theorem executeQuery_propagates_native_error_witness :
    executeQuery cexFailingClient cexQuery
      = ⟨[("select 1", [SqlValue.vint 1])],
         Except.error (QueryError.pgError
           "duplicate key value violates unique constraint"
           "Key (id)=(1) already exists.")⟩ :=
  executeQuery_propagates_native_error cexFailingClient cexQuery
    (QueryError.pgError "duplicate key value violates unique constraint"
      "Key (id)=(1) already exists.") rfl

/-- C5: every result object executeQuery returns is frozen, so a caller's
attempted assignment to any of its fields is rejected and the object is
observably unchanged. -/
theorem executeQuery_result_immutable {O : Type} (client : ClientBehavior O)
    (cq : CompiledQuery) (r : ResultObj O)
    (hok : (executeQuery client cq).outcome = Except.ok r) (w : FieldWrite O) :
    applyWrite r w = r := by
  have hfrozen : r.frozen = true := by
    cases hq : client.query cq.sql (spreadBindings cq.bindings) with
    | error e =>
      have hr : (executeQuery client cq).outcome = Except.error e := by
        simp only [executeQuery, hq]
      rw [hr] at hok
      exact Except.noConfusion hok
    | ok res =>
      have hr : (executeQuery client cq).outcome
          = Except.ok (freeze (mkResultObj
              ⟨if res.command = "UPDATE" ∨ res.command = "DELETE"
                  then some res.rowCount else none, none, res.rows⟩)) := by
        simp only [executeQuery, hq]
      rw [hr] at hok
      cases hok
      rfl
  cases w <;> simp [applyWrite, hfrozen]

/-- Witness for C5: a write to the rows field of a returned result is
rejected. -/
theorem executeQuery_result_immutable_witness :
    applyWrite (⟨⟨some 3, none, [10]⟩, true⟩ : ResultObj Nat) (FieldWrite.setRows [999])
      = ⟨⟨some 3, none, [10]⟩, true⟩ :=
  executeQuery_result_immutable cexUpdateClient cexQuery ⟨⟨some 3, none, [10]⟩, true⟩
    (by decide) (FieldWrite.setRows [999])

/-! ## Lifecycle claims -/

/-- C3: the code contradicts the claim.  With the pg package absent,
`importPg` rejects with the loader's raw module-not-found error — never
with the actionable "Postgres client not installed" message its `catch`
block was written to produce, because `import('pg')` is returned from the
`try` block without being awaited, so its rejection bypasses the `catch`.
`init` consequently still fails immediately (no pool is created), but with
the raw loader error. -/
theorem importPg_missing_dependency_bug :
    importPg false = Except.error (JsError.moduleNotFound "pg")
    ∧ importPg false ≠ Except.error (JsError.error missingPgMessage)
    ∧ importPg true = Except.ok PgModule.mk
    ∧ driverInit false cexPoolConfig freshDriver
        = ([], Except.error (DriverError.loadError (JsError.moduleNotFound "pg"))) := by
  refine ⟨rfl, ?_, rfl, by decide⟩
  decide

/-- C6 helper: destroying a destroyed (or never-initialized) driver again
is the identity and emits no pool event. -/
theorem driverDestroy_idempotent (s : DriverState) :
    driverDestroy (driverDestroy s).2 = ([], (driverDestroy s).2) := by
  cases hl : s.lifecycle with
  | Uninitialized => simp [driverDestroy, hl]
  | Initialized => simp [driverDestroy, hl]
  | Destroyed => simp [driverDestroy, hl]

/-- C6: destroy on a never-initialized driver is a no-op that returns
without error and emits no pool-end event, and a second destroy after any
destroy is likewise a no-op that does not invoke the pool's end operation
again. -/
theorem destroy_noop_and_idempotent (s : DriverState) :
    (s.lifecycle = LifecycleState.Uninitialized → driverDestroy s = ([], s))
    ∧ driverDestroy (driverDestroy s).2 = ([], (driverDestroy s).2) := by
  constructor
  · intro h
    simp [driverDestroy, h]
  · exact driverDestroy_idempotent s

/-- Witness for C6 on a fresh driver. -/
theorem destroy_noop_and_idempotent_witness :
    driverDestroy freshDriver = ([], freshDriver)
    ∧ driverDestroy (driverDestroy freshDriver).2 = ([], (driverDestroy freshDriver).2) := by
  have h := destroy_noop_and_idempotent freshDriver
  exact ⟨h.1 rfl, h.2⟩

/-- C7: a second `init` after a successful `init` fails with
`InvalidStateError`, emits no pool-creation event, and leaves the driver
untouched. -/
theorem init_twice_invalid_state (b b₂ : Bool) (cfg cfg₂ : PoolConfig)
    (s s₁ : DriverState) (evs : List PoolEvent)
    (h : driverInit b cfg s = (evs, Except.ok s₁)) :
    driverInit b₂ cfg₂ s₁ = ([], Except.error DriverError.invalidStateError) := by
  have hlife : s₁.lifecycle = LifecycleState.Initialized := by
    unfold driverInit at h
    cases hl : s.lifecycle with
    | Uninitialized =>
      rw [hl] at h
      cases hi : initImpl b cfg s.impl with
      | mk evs₀ r =>
        rw [hi] at h
        cases r with
        | ok impl =>
          simp only [Prod.mk.injEq] at h
          rw [← Except.ok.inj h.2]
        | error e => simp at h
    | Initialized =>
      rw [hl] at h
      simp at h
    | Destroyed =>
      rw [hl] at h
      simp at h
  unfold driverInit
  rw [hlife]

/-- Witness for C7: initializing an already-initialized driver fails. -/
theorem init_twice_invalid_state_witness :
    driverInit true cexPoolConfig
        ⟨LifecycleState.Initialized, ⟨some cexPoolConfig, [], 0⟩⟩
      = ([], Except.error DriverError.invalidStateError) :=
  init_twice_invalid_state true true cexPoolConfig cexPoolConfig freshDriver
    ⟨LifecycleState.Initialized, ⟨some cexPoolConfig, [], 0⟩⟩
    [PoolEvent.poolCreated cexPoolConfig] (by decide)

/-- C8 helper: a destroyed driver is never in the `Initialized` state. -/
theorem driverDestroy_not_initialized (s : DriverState) :
    (driverDestroy s).2.lifecycle ≠ LifecycleState.Initialized := by
  cases hl : s.lifecycle with
  | Uninitialized => simp [driverDestroy, hl]
  | Initialized => simp [driverDestroy, hl]
  | Destroyed => simp [driverDestroy, hl]

/-- C8 helper: from any non-`Initialized` state, every acquire in any
further sequence of acquire/destroy operations fails with
`InvalidStateError`. -/
theorem runDriverOps_not_initialized (hook : Option Hook) (ops : List DriverOp)
    (t : DriverState) (ht : t.lifecycle ≠ LifecycleState.Initialized)
    (o : Except DriverError PostgresConnection)
    (ho : o ∈ (runDriverOps hook t ops).1) :
    o = Except.error DriverError.invalidStateError := by
  induction ops generalizing t with
  | nil => simp [runDriverOps] at ho
  | cons op ops ih =>
    cases op with
    | acquire c =>
      have hacq : driverAcquire hook t c
          = (Except.error DriverError.invalidStateError, t) := by
        cases hl : t.lifecycle with
        | Uninitialized => simp [driverAcquire, hl]
        | Initialized => exact absurd hl ht
        | Destroyed => simp [driverAcquire, hl]
      simp only [runDriverOps, hacq] at ho
      rcases List.mem_cons.mp ho with hhead | htail
      · exact hhead
      · exact ih t ht htail
    | destroy =>
      have hdes : (driverDestroy t).2 = t := by
        cases hl : t.lifecycle with
        | Uninitialized => simp [driverDestroy, hl]
        | Initialized => exact absurd hl ht
        | Destroyed => simp [driverDestroy, hl]
      simp only [runDriverOps, hdes] at ho
      exact ih t ht ho

/-- C8: once `destroy` has been called, every subsequent `acquire` — under
any further interleaving of acquire and destroy calls — fails with
`InvalidStateError`. -/
theorem acquire_after_destroy_invalid_state (hook : Option Hook) (s : DriverState)
    (ops : List DriverOp) (o : Except DriverError PostgresConnection)
    (ho : o ∈ (runDriverOps hook (driverDestroy s).2 ops).1) :
    o = Except.error DriverError.invalidStateError :=
  runDriverOps_not_initialized hook ops (driverDestroy s).2
    (driverDestroy_not_initialized s) o ho

/-- Witness for C8: an acquire issued right after destroying an initialized
driver fails with `InvalidStateError`. -/
theorem acquire_after_destroy_invalid_state_witness :
    (Except.error DriverError.invalidStateError :
        Except DriverError PostgresConnection)
      = Except.error DriverError.invalidStateError :=
  acquire_after_destroy_invalid_state none
    ⟨LifecycleState.Initialized, ⟨some cexPoolConfig, [], 0⟩⟩
    [DriverOp.acquire 0] (Except.error DriverError.invalidStateError) (by decide)

end KyselyPg
